import Mathlib

/-!
# Blue/green AMI deployment (`pkg/deployer.go`)

A shallow embedding of the `pkg` package of `Trojan295/iac-exercise` and the
properties of its deployment algorithm.

Conventions of the embedding

* A Go `*string` field is an `Option String`; `none` is the nil pointer.  Every
  place where the source dereferences such a pointer is a place where the
  embedding can end in `Outcome.panicked`, as does `instances[0]` on an empty
  slice and `out.Instances[0]` on an empty result.
* A Go slice is a `List`; a nil slice and an empty slice are both `[]`.
* A Go result pair `(v, err)` is `v × Option Error`; `none` is the nil error.
* The two API clients are interfaces.  A client method is a function of the
  calls issued so far (the history) and of the request, which covers every
  deterministic client, stateful ones included.  A method answers either with
  an output or with an error.
* Every function threads the list of API calls issued so far; a call is
  appended at the moment it is issued.  `log.Printf` output is not recorded,
  but the pointer dereferences among its arguments are.
-/

namespace IacExercise

/-! ## Data model (the fields of the AWS SDK types that the package touches) -/

/-- The SDK type `ec2types.GroupIdentifier`. -/
structure GroupIdentifier where
  GroupId : Option String
deriving DecidableEq, Repr

/-- The SDK type `ec2types.Tag`. -/
structure Tag where
  Key : Option String
  Value : Option String
deriving DecidableEq, Repr

/-- The SDK type `ec2types.Instance`. -/
structure Instance where
  InstanceId : Option String
  ImageId : Option String
  InstanceType : String
  VpcId : Option String
  SubnetId : Option String
  SecurityGroups : List GroupIdentifier
  Tags : List Tag
deriving DecidableEq, Repr

/-- The SDK type `ec2types.Reservation`. -/
structure Reservation where
  Instances : List Instance
deriving DecidableEq, Repr

/-- The SDK type `ec2types.Filter`. -/
structure Filter where
  Name : Option String
  Values : List String
deriving DecidableEq, Repr

/-- The SDK type `ec2.DescribeInstancesInput`. -/
structure DescribeInstancesInput where
  Filters : List Filter
deriving DecidableEq, Repr

/-- The SDK type `ec2.DescribeInstancesOutput`. -/
structure DescribeInstancesOutput where
  Reservations : List Reservation
deriving DecidableEq, Repr

/-- The SDK type `ec2types.TagSpecification`. -/
structure TagSpecification where
  ResourceType : String
  Tags : List Tag
deriving DecidableEq, Repr

/-- The SDK type `ec2.RunInstancesInput`. -/
structure RunInstancesInput where
  MinCount : Option Int
  MaxCount : Option Int
  InstanceType : String
  ImageId : Option String
  SubnetId : Option String
  SecurityGroupIds : List String
  UserData : Option String
  TagSpecifications : List TagSpecification
deriving DecidableEq, Repr

/-- The SDK type `ec2.RunInstancesOutput`. -/
structure RunInstancesOutput where
  Instances : List Instance
deriving DecidableEq, Repr

/-- The SDK type `ec2.TerminateInstancesInput`. -/
structure TerminateInstancesInput where
  InstanceIds : List String
deriving DecidableEq, Repr

/-- The SDK type `elbtypes.LoadBalancerDescription`. -/
structure LoadBalancerDescription where
  LoadBalancerName : Option String
  VPCId : Option String
deriving DecidableEq, Repr

/-- The SDK type `elb.DescribeLoadBalancersOutput`. -/
structure DescribeLoadBalancersOutput where
  LoadBalancerDescriptions : List LoadBalancerDescription
deriving DecidableEq, Repr

/-- The SDK type `elbtypes.Instance`. -/
structure ElbInstance where
  InstanceId : Option String
deriving DecidableEq, Repr

/-- The SDK type `elb.RegisterInstancesWithLoadBalancerInput`. -/
structure RegisterInstancesWithLoadBalancerInput where
  LoadBalancerName : Option String
  Instances : List ElbInstance
deriving DecidableEq, Repr

/-- The SDK type `elb.DescribeInstanceHealthInput`. -/
structure DescribeInstanceHealthInput where
  LoadBalancerName : Option String
  Instances : List ElbInstance
deriving DecidableEq, Repr

/-- The SDK type `elbtypes.InstanceState`. -/
structure InstanceState where
  InstanceId : Option String
  State : Option String
deriving DecidableEq, Repr

/-- The SDK type `elb.DescribeInstanceHealthOutput`. -/
structure DescribeInstanceHealthOutput where
  InstanceStates : List InstanceState
deriving DecidableEq, Repr

/-- The input of a deployment (`DeployInput`). -/
structure DeployInput where
  OldAmiID : String
  NewAmiID : String
deriving DecidableEq, Repr

/-! ## Errors -/

/-- Go `error` values seen by the package: an error produced outside the package
(by an API client or by the retry library), the two sentinels of `errors.go`,
and `fmt.Errorf(format + "%v", err)`, which builds a new error around the text
of `err`. -/
inductive Error where
  | api (msg : String)
  | ErrELBNotFound
  | ErrInstancesNotInService
  | Errorf (format : String) (err : Error)
deriving DecidableEq, Repr

/-- The text of an error (`err.Error()`). -/
def Error.message : Error → String
  | .api msg => msg
  | .ErrELBNotFound => "cannot find Elastic LoadBalancer"
  | .ErrInstancesNotInService => "new instances are not InService state"
  | .Errorf format err => format ++ err.message

/-! ## API calls, clients and the execution model -/

/-- One call on one of the two API clients, with its request. -/
inductive Call where
  | DescribeInstances (params : DescribeInstancesInput)
  | RunInstances (params : RunInstancesInput)
  | TerminateInstances (params : TerminateInstancesInput)
  | DescribeLoadBalancers
  | RegisterInstancesWithLoadBalancer (params : RegisterInstancesWithLoadBalancerInput)
  | DescribeInstanceHealth (params : DescribeInstanceHealthInput)
deriving DecidableEq, Repr

/-- The calls issued so far, oldest first. -/
abbrev Trace := List Call

/-- The interface `EC2Client`.  The first argument of a method is the history.
The outputs of `TerminateInstances` are never read by the package, so only its
error is kept. -/
structure EC2Client where
  DescribeInstances : Trace → DescribeInstancesInput → Except Error DescribeInstancesOutput
  RunInstances : Trace → RunInstancesInput → Except Error RunInstancesOutput
  TerminateInstances : Trace → TerminateInstancesInput → Option Error

/-- The interface `ELBClient`.  The output of
`RegisterInstancesWithLoadBalancer` is never read by the package, so only its
error is kept. -/
structure ELBClient where
  DescribeLoadBalancers : Trace → Except Error DescribeLoadBalancersOutput
  RegisterInstancesWithLoadBalancer :
    Trace → RegisterInstancesWithLoadBalancerInput → Option Error
  DescribeInstanceHealth :
    Trace → DescribeInstanceHealthInput → Except Error DescribeInstanceHealthOutput

/-- The struct `Deployer`. -/
structure Deployer where
  ec2Client : EC2Client
  elbClient : ELBClient
  userData : Option String

/-- The constructor `NewDeployer`. -/
def NewDeployer (ec2Client : EC2Client) (elbClient : ELBClient) (userData : Option String) :
    Deployer :=
  { ec2Client := ec2Client, elbClient := elbClient, userData := userData }

/-- How a Go function call ends: it returns, or it panics (nil pointer
dereference, index out of range). -/
inductive Outcome (α : Type) where
  | returned (a : α)
  | panicked
deriving DecidableEq, Repr

/-- What `retry.Do` needs to know about the run.  `retry.Do` is the third-party
package `github.com/avast/retry-go`; the source passes it the caller's context
and a delay and nothing else.  `attempts` is the number of attempts it makes in
this run before it gives up (because of its own attempt limit or because the
context is done, whichever comes first), and `giveUp` is the error it then
reports, computed from the errors of the failed attempts. -/
structure Context where
  attempts : Nat
  giveUp : List Error → Error

/-! ## The package -/

/-- The request built by `getOldInstances`. -/
def describeInstancesInput (oldAmiID : String) : DescribeInstancesInput :=
  { Filters :=
      [ { Name := some "image-id", Values := [oldAmiID] },
        { Name := some "instance-state-name", Values := ["running"] } ] }

/-- The loop `for _, reservation := range out.Reservations` of `getOldInstances`. -/
def appendReservations : List Reservation → List Instance → List Instance
  | [], instances => instances
  | reservation :: rest, instances =>
      appendReservations rest (instances ++ reservation.Instances)

/-- The method `getOldInstances`. -/
def getOldInstances (d : Deployer) (oldAmiID : String) (tr : Trace) :
    Outcome (List Instance × Option Error) × Trace :=
  let params := describeInstancesInput oldAmiID
  match d.ec2Client.DescribeInstances tr params with
  | .error err =>
      (.returned ([], some (.Errorf "while describing instances: " err)),
        tr ++ [.DescribeInstances params])
  | .ok out =>
      (.returned (appendReservations out.Reservations [], none),
        tr ++ [.DescribeInstances params])

/-- The loop over `oldInstance.SecurityGroups` of `createNewInstance`; `none`
is the panic of `*sg.GroupId` on a nil pointer. -/
def collectGroupIds : List GroupIdentifier → List String → Option (List String)
  | [], securityGroupIDs => some securityGroupIDs
  | sg :: rest, securityGroupIDs =>
      match sg.GroupId with
      | none => none
      | some groupId => collectGroupIds rest (securityGroupIDs ++ [groupId])

/-- The Go function `strings.HasPrefix`. -/
def hasPrefix (s pfx : String) : Bool :=
  pfx.toList.isPrefixOf s.toList

/-- The loop over `oldInstance.Tags` of `createNewInstance`; `none` is the
panic of `*tag.Key` on a nil pointer. -/
def collectTags : List Tag → List Tag → Option (List Tag)
  | [], tags => some tags
  | tag :: rest, tags =>
      match tag.Key with
      | none => none
      | some key =>
          if hasPrefix key "aws" then collectTags rest tags
          else collectTags rest (tags ++ [tag])

/-- The method `createNewInstance`.  The result is a pointer to the first
instance of the output, or nil with an error. -/
def createNewInstance (d : Deployer) (oldInstance : Instance) (newAmiID : String)
    (tr : Trace) : Outcome (Option Instance × Option Error) × Trace :=
  match collectGroupIds oldInstance.SecurityGroups [] with
  | none => (.panicked, tr)
  | some securityGroupIDs =>
    match collectTags oldInstance.Tags [] with
    | none => (.panicked, tr)
    | some tags =>
      let params : RunInstancesInput :=
        { MinCount := some 1
          MaxCount := some 1
          InstanceType := oldInstance.InstanceType
          ImageId := some newAmiID
          SubnetId := oldInstance.SubnetId
          SecurityGroupIds := securityGroupIDs
          UserData := d.userData
          TagSpecifications := [ { ResourceType := "instance", Tags := tags } ] }
      match d.ec2Client.RunInstances tr params with
      | .error err =>
          (.returned (none, some (.Errorf "while running new instance: " err)),
            tr ++ [.RunInstances params])
      | .ok out =>
          match out.Instances with
          | [] => (.panicked, tr ++ [.RunInstances params])
          | first :: _ => (.returned (some first, none), tr ++ [.RunInstances params])

/-- The loop of `createNewInstances`, with the slice `newInstances` built so
far. -/
def createNewInstancesLoop (d : Deployer) (newAmiID : String) :
    List Instance → List Instance → Trace → Outcome (List Instance × Option Error) × Trace
  | [], newInstances, tr => (.returned (newInstances, none), tr)
  | inst :: rest, newInstances, tr =>
      match createNewInstance d inst newAmiID tr with
      | (.panicked, tr1) => (.panicked, tr1)
      | (.returned (_, some err), tr1) =>
          (.returned (newInstances, some (.Errorf "while creating new instance: " err)), tr1)
      | (.returned (none, none), tr1) => (.panicked, tr1)
      | (.returned (some newInstance, none), tr1) =>
          createNewInstancesLoop d newAmiID rest (newInstances ++ [newInstance]) tr1

/-- The method `createNewInstances`. -/
def createNewInstances (d : Deployer) (oldInstances : List Instance) (newAmiID : String)
    (tr : Trace) : Outcome (List Instance × Option Error) × Trace :=
  createNewInstancesLoop d newAmiID oldInstances [] tr

/-- The loop over `out.LoadBalancerDescriptions` of `findLoadBalancer`.  The
comparison `*elb.VPCId == *instances[0].VpcId` dereferences the load balancer's
pointer, indexes the slice, and dereferences the instance's pointer. -/
def findLoadBalancerLoop (instances : List Instance) :
    List LoadBalancerDescription → Outcome (Option LoadBalancerDescription × Option Error)
  | [] => .returned (none, some .ErrELBNotFound)
  | elb :: rest =>
      match elb.VPCId with
      | none => .panicked
      | some elbVpc =>
          match instances with
          | [] => .panicked
          | first :: _ =>
              match first.VpcId with
              | none => .panicked
              | some vpc =>
                  if elbVpc = vpc then .returned (some elb, none)
                  else findLoadBalancerLoop instances rest

/-- The method `findLoadBalancer`. -/
def findLoadBalancer (d : Deployer) (instances : List Instance) (tr : Trace) :
    Outcome (Option LoadBalancerDescription × Option Error) × Trace :=
  match d.elbClient.DescribeLoadBalancers tr with
  | .error err =>
      (.returned (none, some (.Errorf "while describing ELBs: " err)),
        tr ++ [.DescribeLoadBalancers])
  | .ok out =>
      (findLoadBalancerLoop instances out.LoadBalancerDescriptions,
        tr ++ [.DescribeLoadBalancers])

/-- The loop that builds `elbInstances` in `attachInstancesToLoadBalancer` and
in `checkInstancesHealth`; the pointer `inst.InstanceId` is copied, not
dereferenced. -/
def appendElbInstances : List Instance → List ElbInstance → List ElbInstance
  | [], elbInstances => elbInstances
  | inst :: rest, elbInstances =>
      appendElbInstances rest (elbInstances ++ [{ InstanceId := inst.InstanceId }])

/-- The method `attachInstancesToLoadBalancer`. -/
def attachInstancesToLoadBalancer (d : Deployer) (loadBalancer : LoadBalancerDescription)
    (instances : List Instance) (tr : Trace) : Outcome (Option Error) × Trace :=
  let params : RegisterInstancesWithLoadBalancerInput :=
    { LoadBalancerName := loadBalancer.LoadBalancerName
      Instances := appendElbInstances instances [] }
  match d.elbClient.RegisterInstancesWithLoadBalancer tr params with
  | some err =>
      (.returned (some (.Errorf "while registering instances with ELB: " err)),
        tr ++ [.RegisterInstancesWithLoadBalancer params])
  | none => (.returned none, tr ++ [.RegisterInstancesWithLoadBalancer params])

/-- The loop over `out.InstanceStates` of `checkInstancesHealth`; `*state.State`
panics on a nil pointer. -/
def allInService : List InstanceState → Outcome (Bool × Option Error)
  | [] => .returned (true, none)
  | state :: rest =>
      match state.State with
      | none => .panicked
      | some s =>
          if s ≠ "InService" then .returned (false, none)
          else allInService rest

/-- The method `checkInstancesHealth`. -/
def checkInstancesHealth (d : Deployer) (loadBalancer : LoadBalancerDescription)
    (instances : List Instance) (tr : Trace) : Outcome (Bool × Option Error) × Trace :=
  let params : DescribeInstanceHealthInput :=
    { LoadBalancerName := loadBalancer.LoadBalancerName
      Instances := appendElbInstances instances [] }
  match d.elbClient.DescribeInstanceHealth tr params with
  | .error err =>
      (.returned (false, some (.Errorf "while describing instances health on ELB: " err)),
        tr ++ [.DescribeInstanceHealth params])
  | .ok out => (allInService out.InstanceStates, tr ++ [.DescribeInstanceHealth params])

/-- The function literal that `ensureInstancesAreInService` hands to
`retry.Do`: one health-check attempt. -/
def healthAttempt (d : Deployer) (loadBalancer : LoadBalancerDescription)
    (instances : List Instance) (tr : Trace) : Outcome (Option Error) × Trace :=
  match checkInstancesHealth d loadBalancer instances tr with
  | (.panicked, tr1) => (.panicked, tr1)
  | (.returned (_, some err), tr1) => (.returned (some err), tr1)
  | (.returned (healthy, none), tr1) =>
      if !healthy then (.returned (some .ErrInstancesNotInService), tr1)
      else (.returned none, tr1)

/-- The library function `retry.Do`, by its interface contract: the retryable
function is run again after every attempt that returns an error and its first
nil result is returned; after `attempts` failed attempts the library gives up
and reports `giveUp` of the collected errors.  The second argument is the
number of attempts left, the third the errors collected so far. -/
def retryDo (giveUp : List Error → Error) (retryableFunc : Trace → Outcome (Option Error) × Trace) :
    Nat → List Error → Trace → Outcome (Option Error) × Trace
  | 0, errs, tr => (.returned (some (giveUp errs)), tr)
  | n + 1, errs, tr =>
      match retryableFunc tr with
      | (.panicked, tr1) => (.panicked, tr1)
      | (.returned none, tr1) => (.returned none, tr1)
      | (.returned (some err), tr1) => retryDo giveUp retryableFunc n (errs ++ [err]) tr1

/-- The method `ensureInstancesAreInService`. -/
def ensureInstancesAreInService (d : Deployer) (ctx : Context)
    (loadBalancer : LoadBalancerDescription) (instances : List Instance) (tr : Trace) :
    Outcome (Option Error) × Trace :=
  retryDo ctx.giveUp (healthAttempt d loadBalancer instances) ctx.attempts [] tr

/-- The loop that builds `IDs` in `terminateTypeInstances`; `none` is the panic
of `*inst.InstanceId` on a nil pointer. -/
def collectInstanceIds : List Instance → List String → Option (List String)
  | [], ids => some ids
  | inst :: rest, ids =>
      match inst.InstanceId with
      | none => none
      | some id => collectInstanceIds rest (ids ++ [id])

/-- The method `terminateTypeInstances`. -/
def terminateTypeInstances (d : Deployer) (instances : List Instance) (tr : Trace) :
    Outcome (Option Error) × Trace :=
  match collectInstanceIds instances [] with
  | none => (.panicked, tr)
  | some ids =>
      let params : TerminateInstancesInput := { InstanceIds := ids }
      match d.ec2Client.TerminateInstances tr params with
      | some err =>
          (.returned (some (.Errorf "while terminating instances: " err)),
            tr ++ [.TerminateInstances params])
      | none => (.returned none, tr ++ [.TerminateInstances params])

/-- The method `Deploy`.  After `findLoadBalancer` the log line dereferences
`elb` and `elb.LoadBalancerName`. -/
def Deploy (d : Deployer) (ctx : Context) (input : DeployInput) (tr : Trace) :
    Outcome (Option Error) × Trace :=
  match getOldInstances d input.OldAmiID tr with
  | (.panicked, tr1) => (.panicked, tr1)
  | (.returned (_, some err), tr1) =>
      (.returned (some (.Errorf "while getting old instances: " err)), tr1)
  | (.returned (oldInstances, none), tr1) =>
  match findLoadBalancer d oldInstances tr1 with
  | (.panicked, tr2) => (.panicked, tr2)
  | (.returned (_, some err), tr2) =>
      (.returned (some (.Errorf "while finding ELB: " err)), tr2)
  | (.returned (none, none), tr2) => (.panicked, tr2)
  | (.returned (some elb, none), tr2) =>
  match elb.LoadBalancerName with
  | none => (.panicked, tr2)
  | some _ =>
  match createNewInstances d oldInstances input.NewAmiID tr2 with
  | (.panicked, tr3) => (.panicked, tr3)
  | (.returned (_, some err), tr3) =>
      (.returned (some (.Errorf "while creating new instances: " err)), tr3)
  | (.returned (newInstances, none), tr3) =>
  match attachInstancesToLoadBalancer d elb newInstances tr3 with
  | (.panicked, tr4) => (.panicked, tr4)
  | (.returned (some err), tr4) =>
      (.returned (some (.Errorf "while attaching instances to load balancer: " err)), tr4)
  | (.returned none, tr4) =>
  match ensureInstancesAreInService d ctx elb newInstances tr4 with
  | (.panicked, tr5) => (.panicked, tr5)
  | (.returned (some err), tr5) =>
      (.returned (some (.Errorf "while ensuring new instances are InService: " err)), tr5)
  | (.returned none, tr5) =>
  match terminateTypeInstances d oldInstances tr5 with
  | (.panicked, tr6) => (.panicked, tr6)
  | (.returned (some err), tr6) =>
      (.returned (some (.Errorf "while terminating old instances: " err)), tr6)
  | (.returned none, tr6) => (.returned none, tr6)

/-! ## Reference descriptions used in the statements -/

/-- A tag carries the reserved provider prefix when its key is present and
begins with the text aws.  -/
def Tag.hasReservedKey (tag : Tag) : Bool :=
  match tag.Key with
  | some key => hasPrefix key "aws"
  | none => false

/-- The request that the provisioner is expected to send for one old instance:
one instance of the new image, with the old instance's type, subnet and
security groups, the configured user data, and the old tags without the
reserved ones. -/
def expectedRunInstancesInput (d : Deployer) (newAmiID : String) (oldInstance : Instance) :
    RunInstancesInput :=
  { MinCount := some 1
    MaxCount := some 1
    InstanceType := oldInstance.InstanceType
    ImageId := some newAmiID
    SubnetId := oldInstance.SubnetId
    SecurityGroupIds := oldInstance.SecurityGroups.filterMap (fun sg => sg.GroupId)
    UserData := d.userData
    TagSpecifications :=
      [ { ResourceType := "instance"
          Tags := oldInstance.Tags.filter (fun tag => !tag.hasReservedKey) } ] }

/-- The pointers that `createNewInstance` dereferences in an old instance are
not nil: every security group has an id and every tag has a key. -/
def Instance.Cloneable (oldInstance : Instance) : Prop :=
  (∀ sg ∈ oldInstance.SecurityGroups, sg.GroupId ≠ none) ∧
    (∀ tag ∈ oldInstance.Tags, tag.Key ≠ none)

/-- Starting from the history `tr`, the `RunInstances` calls for the old
instances `olds`, issued one after the other, all succeed, and the call for the
i-th old instance returns the i-th instance of `news` first in its output. -/
def RunsSucceed (d : Deployer) (newAmiID : String) :
    List Instance → List Instance → Trace → Prop
  | [], [], _ => True
  | o :: olds, n :: news, tr =>
      (∃ more, d.ec2Client.RunInstances tr (expectedRunInstancesInput d newAmiID o)
          = .ok { Instances := n :: more }) ∧
        RunsSucceed d newAmiID olds news
          (tr ++ [.RunInstances (expectedRunInstancesInput d newAmiID o)])
  | _, _, _ => False

/-- Whether a call is a `DescribeInstanceHealth` call. -/
def Call.isHealthCheck : Call → Bool
  | .DescribeInstanceHealth _ => true
  | _ => false

/-- Whether a call is a `TerminateInstances` call. -/
def Call.isTerminate : Call → Bool
  | .TerminateInstances _ => true
  | _ => false

/-- Whether a call is a `RunInstances` call. -/
def Call.isRun : Call → Bool
  | .RunInstances _ => true
  | _ => false

/-- Whether a call is a `RegisterInstancesWithLoadBalancer` call. -/
def Call.isRegister : Call → Bool
  | .RegisterInstancesWithLoadBalancer _ => true
  | _ => false

/-- The load-balancer view of a list of instances: their ids, in order. -/
def elbInstancesOf (instances : List Instance) : List ElbInstance :=
  instances.map (fun inst => { InstanceId := inst.InstanceId })

/-- The ids of a list of instances, in order. -/
def instanceIdsOf (instances : List Instance) : List String :=
  instances.filterMap (fun inst => inst.InstanceId)

/-- The calls that provisioning issues for a list of old instances, in order. -/
def runCalls (d : Deployer) (newAmiID : String) (olds : List Instance) : List Call :=
  olds.map (fun o => Call.RunInstances (expectedRunInstancesInput d newAmiID o))

/-- The registration call for a load balancer and a list of instances. -/
def registerCall (loadBalancer : LoadBalancerDescription) (instances : List Instance) : Call :=
  .RegisterInstancesWithLoadBalancer
    { LoadBalancerName := loadBalancer.LoadBalancerName, Instances := elbInstancesOf instances }

/-- The health query for a load balancer and a list of instances. -/
def healthCall (loadBalancer : LoadBalancerDescription) (instances : List Instance) : Call :=
  .DescribeInstanceHealth
    { LoadBalancerName := loadBalancer.LoadBalancerName, Instances := elbInstancesOf instances }

/-- An instance is reported in service by a health answer when the answer holds
a state for the instance's id and that state is InService. -/
def ReportedInService (states : List InstanceState) (inst : Instance) : Prop :=
  ∃ s ∈ states, s.InstanceId = inst.InstanceId ∧ s.State = some "InService"

/-- A history without a `TerminateInstances` call. -/
def NoTerminate (tr : Trace) : Prop :=
  ∀ c ∈ tr, c.isTerminate = false

/-! ## Stub clients and the scenario of `TestDeploymentHappyPath` -/

/-- A scripted pair of clients in the manner of the mocks of
`deployer_test.go`: fixed answers for the calls that are issued once, an
answer per request for `RunInstances`, and an answer per attempt (the number of
`DescribeInstanceHealth` calls already issued) for the health check. -/
structure Script where
  reservations : Except Error (List Reservation)
  loadBalancers : Except Error (List LoadBalancerDescription)
  run : RunInstancesInput → Except Error (List Instance)
  register : Option Error
  health : Nat → Except Error (List InstanceState)
  terminate : Option Error

/-- The deployer that talks to the scripted clients. -/
def Script.deployer (s : Script) (userData : Option String) : Deployer :=
  NewDeployer
    { DescribeInstances := fun _ _ =>
        match s.reservations with
        | .ok rs => .ok { Reservations := rs }
        | .error err => .error err
      RunInstances := fun _ params =>
        match s.run params with
        | .ok instances => .ok { Instances := instances }
        | .error err => .error err
      TerminateInstances := fun _ _ => s.terminate }
    { DescribeLoadBalancers := fun _ =>
        match s.loadBalancers with
        | .ok lbs => .ok { LoadBalancerDescriptions := lbs }
        | .error err => .error err
      RegisterInstancesWithLoadBalancer := fun _ _ => s.register
      DescribeInstanceHealth := fun tr _ =>
        match s.health (tr.countP Call.isHealthCheck) with
        | .ok states => .ok { InstanceStates := states }
        | .error err => .error err }
    userData

/-- The helper `getTypeInstanceStub` of the test, with one more tag that
carries the reserved prefix. -/
def getTypeInstanceStub (id ami vpcId subnetId : String) (sgIds : List String) : Instance :=
  { InstanceId := some id
    ImageId := some ami
    InstanceType := ""
    VpcId := some vpcId
    SubnetId := some subnetId
    SecurityGroups := sgIds.map (fun sg => { GroupId := some sg })
    Tags := [ { Key := some "Name", Value := some id },
              { Key := some "aws:cloudformation:stack-name", Value := some "web" } ] }

/-- The helper `getLoadBalancerDescription` of the test. -/
def getLoadBalancerDescription (name vpcID : String) : LoadBalancerDescription :=
  { LoadBalancerName := some name, VPCId := some vpcID }

/-- An instance as the stubbed `RunInstances` returns it: only the id is set. -/
def newInstanceStub (id : String) : Instance :=
  { InstanceId := some id, ImageId := none, InstanceType := "", VpcId := none,
    SubnetId := none, SecurityGroups := [], Tags := [] }

/-- The three old instances of `TestDeploymentHappyPath`. -/
def testOldInstances : List Instance :=
  [ getTypeInstanceStub "i-1" "ami-123" "vpc-1" "subnet-1" ["sg-1"],
    getTypeInstanceStub "i-2" "ami-123" "vpc-1" "subnet-2" ["sg-1"],
    getTypeInstanceStub "i-3" "ami-123" "vpc-1" "subnet-3" ["sg-1"] ]

/-- The three new instances of `TestDeploymentHappyPath`. -/
def testNewInstances : List Instance :=
  [ newInstanceStub "i-1-new", newInstanceStub "i-2-new", newInstanceStub "i-3-new" ]

/-- The stubbed `RunInstances` of the test: the new instance is chosen by the
subnet of the request. -/
def testRun (params : RunInstancesInput) : Except Error (List Instance) :=
  if params.SubnetId = some "subnet-1" then .ok [newInstanceStub "i-1-new"]
  else if params.SubnetId = some "subnet-2" then .ok [newInstanceStub "i-2-new"]
  else if params.SubnetId = some "subnet-3" then .ok [newInstanceStub "i-3-new"]
  else .error (.api "unexpected call")

/-- The health answer of the test: the three new instances in service. -/
def testHealthy : List InstanceState :=
  [ { InstanceId := some "i-1-new", State := some "InService" },
    { InstanceId := some "i-2-new", State := some "InService" },
    { InstanceId := some "i-3-new", State := some "InService" } ]

/-- The script of `TestDeploymentHappyPath`. -/
def testScript : Script :=
  { reservations := .ok [ { Instances := testOldInstances } ]
    loadBalancers := .ok [ getLoadBalancerDescription "test-elb" "vpc-1",
                           getLoadBalancerDescription "wrong-elb" "other-vpc" ]
    run := testRun
    register := none
    health := fun _ => .ok testHealthy
    terminate := none }

/-- The deployer of `TestDeploymentHappyPath`. -/
def testDeployer : Deployer := testScript.deployer none

/-- A run context in which `retry.Do` makes up to three attempts. -/
def testContext : Context :=
  { attempts := 3, giveUp := fun errs => errs.getLastD (.api "context deadline exceeded") }

/-- The deployment input of `TestDeploymentHappyPath`. -/
def testInput : DeployInput := { OldAmiID := "ami-123", NewAmiID := "ami-987" }

/-- The script of the test, except that the `RunInstances` call for the second
old instance fails. -/
def failingRunScript : Script :=
  { testScript with
    run := fun params =>
      if params.SubnetId = some "subnet-2" then .error (.api "InsufficientInstanceCapacity")
      else testRun params }

/-- The script of the test, except that the health answer names only the first
of the three new instances. -/
def partialHealthScript : Script :=
  { testScript with
    health := fun _ => .ok [ { InstanceId := some "i-1-new", State := some "InService" } ] }

/-- The script of the test, except that the second new instance is reported
out of service on the first attempt and in service from the second on. -/
def slowStartScript : Script :=
  { testScript with
    health := fun n =>
      if n = 0 then
        .ok [ { InstanceId := some "i-1-new", State := some "InService" },
              { InstanceId := some "i-2-new", State := some "OutOfService" },
              { InstanceId := some "i-3-new", State := some "InService" } ]
      else .ok testHealthy }

/-- The script of the test, except that the matching load balancer is listed
after one of another network and before a second match. -/
def threeBalancersScript : Script :=
  { testScript with
    loadBalancers := .ok [ getLoadBalancerDescription "wrong-elb" "other-vpc",
                           getLoadBalancerDescription "test-elb" "vpc-1",
                           getLoadBalancerDescription "late-elb" "vpc-1" ] }

/-- A script in which discovery finds no instance (one reservation without
instances) and no load balancer exists. -/
def noInstancesScript : Script :=
  { testScript with
    reservations := .ok [ { Instances := [] } ]
    loadBalancers := .ok [] }

/-- A script in which discovery finds no instance and the load balancers of the
test exist. -/
def noInstancesWithBalancersScript : Script :=
  { testScript with reservations := .ok [] }

/-! ## The loops in closed form -/

theorem appendReservations_eq (rs : List Reservation) (acc : List Instance) :
    appendReservations rs acc = acc ++ (rs.map (fun r => r.Instances)).flatten := by
  induction rs generalizing acc with
  | nil => simp [appendReservations]
  | cons r rs ih => simp [appendReservations, ih]

theorem collectGroupIds_eq (sgs : List GroupIdentifier) (acc : List String)
    (h : ∀ sg ∈ sgs, sg.GroupId ≠ none) :
    collectGroupIds sgs acc = some (acc ++ sgs.filterMap (fun sg => sg.GroupId)) := by
  induction sgs generalizing acc with
  | nil => simp [collectGroupIds]
  | cons sg sgs ih =>
      have hsg := h sg (List.mem_cons_self _ _)
      have hrest : ∀ x ∈ sgs, x.GroupId ≠ none := fun x hx => h x (List.mem_cons_of_mem _ hx)
      cases hg : sg.GroupId with
      | none => exact absurd hg hsg
      | some g => simp [collectGroupIds, hg, ih _ hrest, List.filterMap_cons]

theorem collectTags_eq (tags : List Tag) (acc : List Tag)
    (h : ∀ tag ∈ tags, tag.Key ≠ none) :
    collectTags tags acc = some (acc ++ tags.filter (fun tag => !tag.hasReservedKey)) := by
  induction tags generalizing acc with
  | nil => simp [collectTags]
  | cons tag tags ih =>
      have htag := h tag (List.mem_cons_self _ _)
      have hrest : ∀ x ∈ tags, x.Key ≠ none := fun x hx => h x (List.mem_cons_of_mem _ hx)
      cases hk : tag.Key with
      | none => exact absurd hk htag
      | some key =>
          by_cases hp : hasPrefix key "aws" = true
          · simp [collectTags, hk, hp, ih _ hrest, Tag.hasReservedKey, List.filter_cons]
          · simp [collectTags, hk, hp, ih _ hrest, Tag.hasReservedKey, List.filter_cons]

theorem appendElbInstances_eq (instances : List Instance) (acc : List ElbInstance) :
    appendElbInstances instances acc
      = acc ++ instances.map (fun inst => ({ InstanceId := inst.InstanceId } : ElbInstance)) := by
  induction instances generalizing acc with
  | nil => simp [appendElbInstances]
  | cons inst instances ih => simp [appendElbInstances, ih]

theorem collectInstanceIds_eq (instances : List Instance) (acc : List String)
    (h : ∀ inst ∈ instances, inst.InstanceId ≠ none) :
    collectInstanceIds instances acc
      = some (acc ++ instances.filterMap (fun inst => inst.InstanceId)) := by
  induction instances generalizing acc with
  | nil => simp [collectInstanceIds]
  | cons inst instances ih =>
      have hi := h inst (List.mem_cons_self _ _)
      have hrest : ∀ x ∈ instances, x.InstanceId ≠ none :=
        fun x hx => h x (List.mem_cons_of_mem _ hx)
      cases hid : inst.InstanceId with
      | none => exact absurd hid hi
      | some id => simp [collectInstanceIds, hid, ih _ hrest, List.filterMap_cons]

theorem filterMap_map_some {α β : Type} (f : α → Option β) (l : List α)
    (h : ∀ x ∈ l, f x ≠ none) : (l.filterMap f).map some = l.map f := by
  induction l with
  | nil => simp
  | cons x l ih =>
      have hx := h x (List.mem_cons_self _ _)
      have hrest : ∀ y ∈ l, f y ≠ none := fun y hy => h y (List.mem_cons_of_mem _ hy)
      cases hf : f x with
      | none => exact absurd hf hx
      | some b => simp [List.filterMap_cons, hf, ih hrest]

/-- What `createNewInstance` does with a cloneable old instance: exactly one
`RunInstances` call with the expected request, and the result decided by the
answer. -/
theorem createNewInstance_eq (d : Deployer) (o : Instance) (newAmiID : String) (tr : Trace)
    (h : o.Cloneable) :
    createNewInstance d o newAmiID tr =
      (match d.ec2Client.RunInstances tr (expectedRunInstancesInput d newAmiID o) with
        | .error err => .returned (none, some (.Errorf "while running new instance: " err))
        | .ok out =>
            match out.Instances with
            | [] => .panicked
            | first :: _ => .returned (some first, none),
        tr ++ [.RunInstances (expectedRunInstancesInput d newAmiID o)]) := by
  unfold createNewInstance
  rw [collectGroupIds_eq _ _ h.1, collectTags_eq _ _ h.2]
  simp only [List.nil_append, expectedRunInstancesInput]
  cases d.ec2Client.RunInstances tr _ with
  | error err => rfl
  | ok out =>
      cases hout : out.Instances with
      | nil => simp [hout]
      | cons first more => simp [hout]

theorem hasPrefix_iff (s pfx : String) :
    hasPrefix s pfx = true ↔ ∃ rest : String, s = pfx ++ rest := by
  unfold hasPrefix
  rw [ List.isPrefixOf_iff_prefix]
  constructor
  · rintro ⟨t, ht⟩
    refine ⟨⟨t⟩, ?_⟩
    apply String.ext
    simp only [String.toList] at ht
    simp [String.data_append, ht]
  · rintro ⟨rest, hrest⟩
    refine ⟨rest.toList, ?_⟩
    simp [hrest, String.toList, String.data_append]

theorem RunsSucceed_length (d : Deployer) (newAmiID : String) (olds news : List Instance)
    (tr : Trace) (h : RunsSucceed d newAmiID olds news tr) : news.length = olds.length := by
  induction olds generalizing news tr with
  | nil =>
      cases news with
      | nil => rfl
      | cons n news => simp [RunsSucceed] at h
  | cons o olds ih =>
      cases news with
      | nil => simp [RunsSucceed] at h
      | cons n news =>
          simp only [RunsSucceed] at h
          simp [ih news _ h.2]

/-- The provisioning loop over a run of old instances whose `RunInstances`
calls all succeed: the loop reaches the rest of the list with the new instances
appended to its result and the requests appended to the history. -/
theorem createNewInstancesLoop_append (d : Deployer) (newAmiID : String)
    (pre rest news acc : List Instance) (tr : Trace)
    (hsafe : ∀ o ∈ pre, o.Cloneable) (hruns : RunsSucceed d newAmiID pre news tr) :
    createNewInstancesLoop d newAmiID (pre ++ rest) acc tr =
      createNewInstancesLoop d newAmiID rest (acc ++ news)
        (tr ++ pre.map (fun o => Call.RunInstances (expectedRunInstancesInput d newAmiID o))) := by
  induction pre generalizing news acc tr with
  | nil =>
      cases news with
      | nil => simp
      | cons n news => simp [RunsSucceed] at hruns
  | cons o pre ih =>
      cases news with
      | nil => simp [RunsSucceed] at hruns
      | cons n news =>
          simp only [RunsSucceed] at hruns
          obtain ⟨⟨more, hcall⟩, hnext⟩ := hruns
          have ho := hsafe o (List.mem_cons_self _ _)
          have hpre : ∀ x ∈ pre, x.Cloneable := fun x hx => hsafe x (List.mem_cons_of_mem _ hx)
          simp only [List.cons_append, createNewInstancesLoop]
          rw [createNewInstance_eq d o newAmiID tr ho, hcall]
          have hstep := ih news (acc ++ [n]) _ hpre hnext
          simpa [List.append_assoc] using hstep

/-- Load balancers of other networks in front of the list are skipped. -/
theorem findLoadBalancerLoop_skip (first : Instance) (others : List Instance) (vpc : String)
    (hvpc : first.VpcId = some vpc) (before rest : List LoadBalancerDescription)
    (hbefore : ∀ x ∈ before, ∃ v, x.VPCId = some v ∧ v ≠ vpc) :
    findLoadBalancerLoop (first :: others) (before ++ rest)
      = findLoadBalancerLoop (first :: others) rest := by
  induction before with
  | nil => rfl
  | cons x before ih =>
      obtain ⟨v, hv, hne⟩ := hbefore x (List.mem_cons_self _ _)
      have hrest : ∀ y ∈ before, ∃ v, y.VPCId = some v ∧ v ≠ vpc :=
        fun y hy => hbefore y (List.mem_cons_of_mem _ hy)
      simp only [List.cons_append, findLoadBalancerLoop, hv, hvpc, if_neg hne]
      exact ih hrest

/-- A load balancer of the wanted network at the front of the list is returned. -/
theorem findLoadBalancerLoop_hit (first : Instance) (others : List Instance) (vpc : String)
    (hvpc : first.VpcId = some vpc) (lb : LoadBalancerDescription)
    (rest : List LoadBalancerDescription) (hlb : lb.VPCId = some vpc) :
    findLoadBalancerLoop (first :: others) (lb :: rest) = .returned (some lb, none) := by
  simp [findLoadBalancerLoop, hlb, hvpc]

/-- The loop ends with `ErrELBNotFound` exactly when no load balancer has the
wanted network. -/
theorem findLoadBalancerLoop_not_found_iff (first : Instance) (others : List Instance)
    (vpc : String) (hvpc : first.VpcId = some vpc) (lbs : List LoadBalancerDescription)
    (hsafe : ∀ lb ∈ lbs, lb.VPCId ≠ none) :
    findLoadBalancerLoop (first :: others) lbs = .returned (none, some .ErrELBNotFound)
      ↔ ∀ lb ∈ lbs, lb.VPCId ≠ some vpc := by
  induction lbs with
  | nil => simp [findLoadBalancerLoop]
  | cons x lbs ih =>
      have hx := hsafe x (List.mem_cons_self _ _)
      have hrest : ∀ y ∈ lbs, y.VPCId ≠ none := fun y hy => hsafe y (List.mem_cons_of_mem _ hy)
      cases hv : x.VPCId with
      | none => exact absurd hv hx
      | some v =>
          by_cases hvv : v = vpc
          · simp [findLoadBalancerLoop, hv, hvpc, hvv]
          · simp [findLoadBalancerLoop, hv, hvpc, hvv, ih hrest]

/-- The health loop answers true exactly when every listed state is InService. -/
theorem allInService_true_iff (states : List InstanceState) :
    allInService states = .returned (true, none)
      ↔ ∀ s ∈ states, s.State = some "InService" := by
  induction states with
  | nil => simp [allInService]
  | cons s states ih =>
      cases hs : s.State with
      | none => simp [allInService, hs]
      | some st =>
          by_cases hst : st = "InService"
          · simp [allInService, hs, hst, ih]
          · simp [allInService, hs, hst]

/-- The health loop answers false, without error, when no state pointer is nil
and some listed state is not InService. -/
theorem allInService_false (states : List InstanceState)
    (hsafe : ∀ s ∈ states, s.State ≠ none)
    (hbad : ∃ s ∈ states, s.State ≠ some "InService") :
    allInService states = .returned (false, none) := by
  induction states with
  | nil => simp at hbad
  | cons s states ih =>
      have hs0 := hsafe s (List.mem_cons_self _ _)
      have hrest : ∀ y ∈ states, y.State ≠ none :=
        fun y hy => hsafe y (List.mem_cons_of_mem _ hy)
      cases hs : s.State with
      | none => exact absurd hs hs0
      | some st =>
          by_cases hst : st = "InService"
          · have hbad2 : ∃ y ∈ states, y.State ≠ some "InService" := by
              obtain ⟨y, hy, hne⟩ := hbad
              rcases List.mem_cons.mp hy with rfl | hy2
              · exact absurd (by rw [hs, hst]) hne
              · exact ⟨y, hy2, hne⟩
            simp [allInService, hs, hst, ih hrest hbad2]
          · simp [allInService, hs, hst]

/-! ## The steps of `Deploy` in closed form -/

theorem getOldInstances_trace (d : Deployer) (oldAmiID : String) (tr : Trace) :
    (getOldInstances d oldAmiID tr).2
      = tr ++ [Call.DescribeInstances (describeInstancesInput oldAmiID)] := by
  unfold getOldInstances
  cases h : d.ec2Client.DescribeInstances tr (describeInstancesInput oldAmiID) <;> simp only [h]

theorem getOldInstances_ok (d : Deployer) (oldAmiID : String) (tr : Trace)
    (out : DescribeInstancesOutput)
    (h : d.ec2Client.DescribeInstances tr (describeInstancesInput oldAmiID) = .ok out) :
    getOldInstances d oldAmiID tr =
      (.returned ((out.Reservations.map (fun r => r.Instances)).flatten, none),
        tr ++ [Call.DescribeInstances (describeInstancesInput oldAmiID)]) := by
  unfold getOldInstances
  simp only [h, appendReservations_eq, List.nil_append]

theorem findLoadBalancer_trace (d : Deployer) (instances : List Instance) (tr : Trace) :
    (findLoadBalancer d instances tr).2 = tr ++ [Call.DescribeLoadBalancers] := by
  unfold findLoadBalancer
  cases d.elbClient.DescribeLoadBalancers tr <;> rfl

theorem attachInstancesToLoadBalancer_eq (d : Deployer) (lb : LoadBalancerDescription)
    (instances : List Instance) (tr : Trace) :
    attachInstancesToLoadBalancer d lb instances tr =
      (match d.elbClient.RegisterInstancesWithLoadBalancer tr
            { LoadBalancerName := lb.LoadBalancerName, Instances := elbInstancesOf instances } with
        | some err => .returned (some (.Errorf "while registering instances with ELB: " err))
        | none => .returned none,
        tr ++ [registerCall lb instances]) := by
  unfold attachInstancesToLoadBalancer
  simp only [appendElbInstances_eq, List.nil_append, elbInstancesOf, registerCall]
  cases d.elbClient.RegisterInstancesWithLoadBalancer tr _ <;> rfl

theorem checkInstancesHealth_eq (d : Deployer) (lb : LoadBalancerDescription)
    (instances : List Instance) (tr : Trace) :
    checkInstancesHealth d lb instances tr =
      (match d.elbClient.DescribeInstanceHealth tr
            { LoadBalancerName := lb.LoadBalancerName, Instances := elbInstancesOf instances } with
        | .error err =>
            .returned (false, some (.Errorf "while describing instances health on ELB: " err))
        | .ok out => allInService out.InstanceStates,
        tr ++ [healthCall lb instances]) := by
  unfold checkInstancesHealth
  simp only [appendElbInstances_eq, List.nil_append, elbInstancesOf, healthCall]
  cases d.elbClient.DescribeInstanceHealth tr _ <;> rfl

theorem checkInstancesHealth_trace (d : Deployer) (lb : LoadBalancerDescription)
    (instances : List Instance) (tr : Trace) :
    (checkInstancesHealth d lb instances tr).2 = tr ++ [healthCall lb instances] := by
  rw [checkInstancesHealth_eq]

theorem healthAttempt_trace (d : Deployer) (lb : LoadBalancerDescription)
    (instances : List Instance) (tr : Trace) :
    (healthAttempt d lb instances tr).2 = tr ++ [healthCall lb instances] := by
  unfold healthAttempt
  rw [checkInstancesHealth_eq]
  cases d.elbClient.DescribeInstanceHealth tr _ with
  | error err => rfl
  | ok out =>
      simp only []
      cases allInService out.InstanceStates with
      | panicked => rfl
      | returned r =>
          obtain ⟨healthy, e⟩ := r
          cases e with
          | some err => rfl
          | none => cases healthy <;> rfl

/-- One attempt whose health answer is all InService ends without error. -/
theorem healthAttempt_healthy (d : Deployer) (lb : LoadBalancerDescription)
    (instances : List Instance) (tr : Trace) (out : DescribeInstanceHealthOutput)
    (hout : d.elbClient.DescribeInstanceHealth tr
        { LoadBalancerName := lb.LoadBalancerName, Instances := elbInstancesOf instances }
        = .ok out)
    (hall : ∀ s ∈ out.InstanceStates, s.State = some "InService") :
    healthAttempt d lb instances tr = (.returned none, tr ++ [healthCall lb instances]) := by
  unfold healthAttempt
  rw [checkInstancesHealth_eq, hout]
  simp only []
  rw [(allInService_true_iff _).mpr hall]
  rfl

/-- One attempt whose health answer lists a state other than InService ends
with `ErrInstancesNotInService`. -/
theorem healthAttempt_unhealthy (d : Deployer) (lb : LoadBalancerDescription)
    (instances : List Instance) (tr : Trace) (out : DescribeInstanceHealthOutput)
    (hout : d.elbClient.DescribeInstanceHealth tr
        { LoadBalancerName := lb.LoadBalancerName, Instances := elbInstancesOf instances }
        = .ok out)
    (hsafe : ∀ s ∈ out.InstanceStates, s.State ≠ none)
    (hbad : ∃ s ∈ out.InstanceStates, s.State ≠ some "InService") :
    healthAttempt d lb instances tr =
      (.returned (some .ErrInstancesNotInService), tr ++ [healthCall lb instances]) := by
  unfold healthAttempt
  rw [checkInstancesHealth_eq, hout]
  simp only []
  rw [allInService_false _ hsafe hbad]
  rfl

/-- The history after `retry.Do` on the health attempt: the history before it,
followed by one identical health query per attempt made, at most as many as
attempts were allowed, and at least one when one was allowed. -/
theorem retryDo_healthAttempt_trace (giveUp : List Error → Error) (d : Deployer)
    (lb : LoadBalancerDescription) (instances : List Instance) (n : Nat) (errs : List Error)
    (tr : Trace) :
    ∃ k, k ≤ n ∧ (0 < n → 0 < k) ∧
      (retryDo giveUp (healthAttempt d lb instances) n errs tr).2
        = tr ++ List.replicate k (healthCall lb instances) := by
  induction n generalizing errs tr with
  | zero => exact ⟨0, Nat.le_refl _, fun h => absurd h (Nat.lt_irrefl _), by simp [retryDo]⟩
  | succ n ih =>
      have htr := healthAttempt_trace d lb instances tr
      unfold retryDo
      rcases hat : healthAttempt d lb instances tr with ⟨o, t1⟩
      rw [hat] at htr
      simp only at htr
      subst htr
      cases o with
      | panicked => exact ⟨1, by omega, fun _ => Nat.one_pos, by simp⟩
      | returned r =>
          cases r with
          | none => exact ⟨1, by omega, fun _ => Nat.one_pos, by simp⟩
          | some err =>
              obtain ⟨k, hk, _, hkt⟩ := ih (errs ++ [err]) (tr ++ [healthCall lb instances])
              refine ⟨k + 1, by omega, fun _ => Nat.succ_pos _, ?_⟩
              simp only [hkt, List.append_assoc, List.singleton_append, List.replicate_succ]

theorem terminateTypeInstances_eq (d : Deployer) (instances : List Instance) (tr : Trace)
    (h : ∀ inst ∈ instances, inst.InstanceId ≠ none) :
    terminateTypeInstances d instances tr =
      (match d.ec2Client.TerminateInstances tr { InstanceIds := instanceIdsOf instances } with
        | some err => .returned (some (.Errorf "while terminating instances: " err))
        | none => .returned none,
        tr ++ [Call.TerminateInstances { InstanceIds := instanceIdsOf instances }]) := by
  unfold terminateTypeInstances
  rw [collectInstanceIds_eq _ _ h]
  simp only [List.nil_append, instanceIdsOf]
  cases d.ec2Client.TerminateInstances tr _ <;> rfl

/-! ## Which calls a step can add to the history -/

theorem NoTerminate_append (tr ext : Trace) (h : NoTerminate tr)
    (hext : ∀ c ∈ ext, c.isTerminate = false) : NoTerminate (tr ++ ext) := by
  intro c hc
  rcases List.mem_append.mp hc with h1 | h2
  · exact h c h1
  · exact hext c h2

theorem getOldInstances_noTerminate (d : Deployer) (oldAmiID : String) (tr : Trace)
    (h : NoTerminate tr) : NoTerminate (getOldInstances d oldAmiID tr).2 := by
  rw [getOldInstances_trace]
  exact NoTerminate_append _ _ h (by simp [Call.isTerminate])

theorem findLoadBalancer_noTerminate (d : Deployer) (instances : List Instance) (tr : Trace)
    (h : NoTerminate tr) : NoTerminate (findLoadBalancer d instances tr).2 := by
  rw [findLoadBalancer_trace]
  exact NoTerminate_append _ _ h (by simp [Call.isTerminate])

theorem createNewInstance_noTerminate (d : Deployer) (o : Instance) (newAmiID : String)
    (tr : Trace) (h : NoTerminate tr) : NoTerminate (createNewInstance d o newAmiID tr).2 := by
  have hrun : ∀ p, NoTerminate (tr ++ [Call.RunInstances p]) :=
    fun p => NoTerminate_append _ _ h (by simp [Call.isTerminate])
  unfold createNewInstance
  cases collectGroupIds o.SecurityGroups [] with
  | none => exact h
  | some ids =>
      cases collectTags o.Tags [] with
      | none => exact h
      | some tags =>
          simp only []
          cases hcall : d.ec2Client.RunInstances tr _ with
          | error err => exact hrun _
          | ok out =>
              cases hout : out.Instances with
              | nil => simp only [hout]; exact hrun _
              | cons first more => simp only [hout]; exact hrun _

theorem createNewInstancesLoop_noTerminate (d : Deployer) (newAmiID : String)
    (olds acc : List Instance) (tr : Trace) (h : NoTerminate tr) :
    NoTerminate (createNewInstancesLoop d newAmiID olds acc tr).2 := by
  induction olds generalizing acc tr with
  | nil => exact h
  | cons o olds ih =>
      have h1 := createNewInstance_noTerminate d o newAmiID tr h
      unfold createNewInstancesLoop
      rcases hc : createNewInstance d o newAmiID tr with ⟨res, t1⟩
      rw [hc] at h1
      rcases res with ⟨_ | n, _ | err⟩ | _
      · simpa using h1
      · simpa using h1
      · exact ih _ _ h1
      · simpa using h1
      · simpa using h1

theorem attachInstancesToLoadBalancer_noTerminate (d : Deployer) (lb : LoadBalancerDescription)
    (instances : List Instance) (tr : Trace) (h : NoTerminate tr) :
    NoTerminate (attachInstancesToLoadBalancer d lb instances tr).2 := by
  rw [attachInstancesToLoadBalancer_eq]
  exact NoTerminate_append _ _ h (by simp [Call.isTerminate, registerCall])

theorem ensureInstancesAreInService_noTerminate (d : Deployer) (ctx : Context)
    (lb : LoadBalancerDescription) (instances : List Instance) (tr : Trace)
    (h : NoTerminate tr) :
    NoTerminate (ensureInstancesAreInService d ctx lb instances tr).2 := by
  obtain ⟨k, _, _, hk⟩ := retryDo_healthAttempt_trace ctx.giveUp d lb instances ctx.attempts [] tr
  unfold ensureInstancesAreInService
  rw [hk]
  refine NoTerminate_append _ _ h ?_
  intro c hc
  rw [List.eq_of_mem_replicate hc]
  rfl

/-- The shape of every run of `Deploy`: either it stops in one of the first
five steps, and then it does not return nil and adds no `TerminateInstances`
call to the history, or the five steps succeed one after the other and the run
ends with `terminateTypeInstances`. -/
theorem Deploy_cases (d : Deployer) (ctx : Context) (input : DeployInput) (tr : Trace) :
    ((Deploy d ctx input tr).1 ≠ .returned none ∧
      (NoTerminate tr → NoTerminate (Deploy d ctx input tr).2)) ∨
    ∃ olds t1 elb t2 news t3 t4 t5,
      getOldInstances d input.OldAmiID tr = (.returned (olds, none), t1) ∧
      findLoadBalancer d olds t1 = (.returned (some elb, none), t2) ∧
      createNewInstances d olds input.NewAmiID t2 = (.returned (news, none), t3) ∧
      attachInstancesToLoadBalancer d elb news t3 = (.returned none, t4) ∧
      ensureInstancesAreInService d ctx elb news t4 = (.returned none, t5) ∧
      (Deploy d ctx input tr).2 = (terminateTypeInstances d olds t5).2 := by
  have n1 := getOldInstances_noTerminate d input.OldAmiID tr
  unfold Deploy
  rcases h1 : getOldInstances d input.OldAmiID tr with ⟨r1, t1⟩
  rw [h1] at n1
  rcases r1 with ⟨olds, _ | e1⟩ | _
  swap
  · exact Or.inl ⟨by simp, fun h => by simpa using n1 h⟩
  swap
  · exact Or.inl ⟨by simp, fun h => by simpa using n1 h⟩
  have n2 := fun h => findLoadBalancer_noTerminate d olds t1 (n1 h)
  simp only []
  rcases h2 : findLoadBalancer d olds t1 with ⟨r2, t2⟩
  rw [h2] at n2
  rcases r2 with ⟨_ | elb, _ | e2⟩ | _
  · exact Or.inl ⟨by simp, fun h => by simpa using n2 h⟩
  · exact Or.inl ⟨by simp, fun h => by simpa using n2 h⟩
  swap
  · exact Or.inl ⟨by simp, fun h => by simpa using n2 h⟩
  swap
  · exact Or.inl ⟨by simp, fun h => by simpa using n2 h⟩
  simp only []
  cases hname : elb.LoadBalancerName with
  | none => exact Or.inl ⟨by simp, fun h => by simpa using n2 h⟩
  | some name =>
  have n3 := fun h => createNewInstancesLoop_noTerminate d input.NewAmiID olds [] t2 (n2 h)
  simp only []
  rcases h3 : createNewInstances d olds input.NewAmiID t2 with ⟨r3, t3⟩
  have h3b : createNewInstancesLoop d input.NewAmiID olds [] t2 = (r3, t3) := h3
  rw [h3b] at n3
  rcases r3 with ⟨news, _ | e3⟩ | _
  swap
  · exact Or.inl ⟨by simp, fun h => by simpa using n3 h⟩
  swap
  · exact Or.inl ⟨by simp, fun h => by simpa using n3 h⟩
  have n4 := fun h => attachInstancesToLoadBalancer_noTerminate d elb news t3 (n3 h)
  simp only []
  rcases h4 : attachInstancesToLoadBalancer d elb news t3 with ⟨r4, t4⟩
  rw [h4] at n4
  rcases r4 with (_ | e4) | _
  swap
  · exact Or.inl ⟨by simp, fun h => by simpa using n4 h⟩
  swap
  · exact Or.inl ⟨by simp, fun h => by simpa using n4 h⟩
  have n5 := fun h => ensureInstancesAreInService_noTerminate d ctx elb news t4 (n4 h)
  simp only []
  rcases h5 : ensureInstancesAreInService d ctx elb news t4 with ⟨r5, t5⟩
  rw [h5] at n5
  rcases r5 with (_ | e5) | _
  swap
  · exact Or.inl ⟨by simp, fun h => by simpa using n5 h⟩
  swap
  · exact Or.inl ⟨by simp, fun h => by simpa using n5 h⟩
  refine Or.inr ⟨olds, t1, elb, t2, news, t3, t4, t5, rfl, h2, h3, h4, h5, ?_⟩
  simp only []
  rcases terminateTypeInstances d olds t5 with ⟨r6, t6⟩
  rcases r6 with (_ | e6) | _ <;> rfl

/-- The first attempt of the health wait finds every listed state InService:
`ensureInstancesAreInService` returns nil after that one query. -/
theorem ensureInstancesAreInService_first_attempt (d : Deployer) (ctx : Context)
    (lb : LoadBalancerDescription) (instances : List Instance) (tr : Trace)
    (out : DescribeInstanceHealthOutput) (hattempts : 0 < ctx.attempts)
    (hout : d.elbClient.DescribeInstanceHealth tr
        { LoadBalancerName := lb.LoadBalancerName, Instances := elbInstancesOf instances }
        = .ok out)
    (hall : ∀ s ∈ out.InstanceStates, s.State = some "InService") :
    ensureInstancesAreInService d ctx lb instances tr
      = (.returned none, tr ++ [healthCall lb instances]) := by
  obtain ⟨n, hn⟩ : ∃ n, ctx.attempts = n + 1 := ⟨ctx.attempts - 1, by omega⟩
  unfold ensureInstancesAreInService
  rw [hn]
  simp only [retryDo, healthAttempt_healthy d lb instances tr out hout hall]

/-- With no old instance the load-balancer lookup cannot succeed: it returns an
error when the API call fails or lists no load balancer, and it panics on
`instances[0]` otherwise. -/
theorem findLoadBalancer_no_instances (d : Deployer) (tr : Trace) :
    ∀ lb, (findLoadBalancer d [] tr).1 ≠ .returned (some lb, none) := by
  intro lb
  unfold findLoadBalancer
  cases d.elbClient.DescribeLoadBalancers tr with
  | error err => simp
  | ok out =>
      cases hl : out.LoadBalancerDescriptions with
      | nil => simp [hl, findLoadBalancerLoop]
      | cons x rest =>
          cases hx : x.VPCId <;> simp [hl, findLoadBalancerLoop, hx]

/-! ## Discovery -/

/-- C10: `getOldInstances` issues exactly one `DescribeInstances` query, whose
filters are image-id = the old AMI id and instance-state-name = running; on a
successful response it returns, without error, the instances of all
reservations concatenated in reservation order and then instance order, so the
length of the result is the sum of the reservations' instance counts; a
response without instances gives the empty list and no error; an API error
gives an error and no instances. -/
theorem getOldInstances_discovery (d : Deployer) (oldAmiID : String) (tr : Trace) :
    (getOldInstances d oldAmiID tr).2 =
        tr ++ [Call.DescribeInstances
          { Filters := [ { Name := some "image-id", Values := [oldAmiID] },
                         { Name := some "instance-state-name", Values := ["running"] } ] }] ∧
    (∀ out, d.ec2Client.DescribeInstances tr
          { Filters := [ { Name := some "image-id", Values := [oldAmiID] },
                         { Name := some "instance-state-name", Values := ["running"] } ] }
          = .ok out →
        (getOldInstances d oldAmiID tr).1 =
            .returned ((out.Reservations.map (fun r => r.Instances)).flatten, none) ∧
        ((out.Reservations.map (fun r => r.Instances)).flatten).length =
            (out.Reservations.map (fun r => r.Instances.length)).sum ∧
        ((∀ r ∈ out.Reservations, r.Instances = []) →
          (getOldInstances d oldAmiID tr).1 = .returned ([], none))) ∧
    (∀ err, d.ec2Client.DescribeInstances tr
          { Filters := [ { Name := some "image-id", Values := [oldAmiID] },
                         { Name := some "instance-state-name", Values := ["running"] } ] }
          = .error err →
        (getOldInstances d oldAmiID tr).1 =
          .returned ([], some (.Errorf "while describing instances: " err))) := by
  refine ⟨?_, ?_, ?_⟩
  · unfold getOldInstances
    simp only [describeInstancesInput]
    cases d.ec2Client.DescribeInstances tr _ <;> rfl
  · intro out hout
    have hres : (getOldInstances d oldAmiID tr).1 =
        .returned ((out.Reservations.map (fun r => r.Instances)).flatten, none) := by
      unfold getOldInstances
      simp only [describeInstancesInput, hout, appendReservations_eq, List.nil_append]
    refine ⟨hres, ?_, ?_⟩
    · simp [List.length_flatten, Function.comp_def]
    · intro hempty
      rw [hres]
      have : (out.Reservations.map (fun r => r.Instances)).flatten = [] := by
        simp only [List.flatten_eq_nil_iff, List.mem_map]
        rintro l ⟨r, hr, rfl⟩
        exact hempty r hr
      rw [this]
  · intro err herr
    unfold getOldInstances
    simp only [describeInstancesInput, herr]

/-- C10, on the scenario of the test: the three old instances are returned and
one query is issued. -/
theorem getOldInstances_discovery_witness :
    (getOldInstances testDeployer "ami-123" []).1 = .returned (testOldInstances, none) :=
  ((getOldInstances_discovery testDeployer "ami-123" []).2.1
    { Reservations := [ { Instances := testOldInstances } ] } rfl).1

/-! ## Locating the load balancer -/

/-- C5: for a non-empty list of old instances whose first instance has the VPC
id `vpc`: when `DescribeLoadBalancers` succeeds, `findLoadBalancer` returns the
first load balancer in list order whose VPC id is `vpc`, whatever load
balancers of other VPCs precede it and whatever follows it; it returns
`ErrELBNotFound` and no load balancer if and only if no load balancer of the
list has that VPC id; and when `DescribeLoadBalancers` fails, the error that is
returned is not `ErrELBNotFound`.  (The VPC id pointers that the loop
dereferences are not nil.) -/
theorem findLoadBalancer_selection (d : Deployer) (first : Instance) (others : List Instance)
    (tr : Trace) (vpc : String) (hvpc : first.VpcId = some vpc) :
    (findLoadBalancer d (first :: others) tr).2 = tr ++ [Call.DescribeLoadBalancers] ∧
    (∀ before lb after,
        d.elbClient.DescribeLoadBalancers tr
          = .ok { LoadBalancerDescriptions := before ++ lb :: after } →
        (∀ x ∈ before, ∃ v, x.VPCId = some v ∧ v ≠ vpc) →
        lb.VPCId = some vpc →
        (findLoadBalancer d (first :: others) tr).1 = .returned (some lb, none)) ∧
    (∀ out, d.elbClient.DescribeLoadBalancers tr = .ok out →
        (∀ lb ∈ out.LoadBalancerDescriptions, lb.VPCId ≠ none) →
        ((findLoadBalancer d (first :: others) tr).1 = .returned (none, some .ErrELBNotFound)
          ↔ ∀ lb ∈ out.LoadBalancerDescriptions, lb.VPCId ≠ some vpc)) ∧
    (∀ err, d.elbClient.DescribeLoadBalancers tr = .error err →
        ∃ e, (findLoadBalancer d (first :: others) tr).1 = .returned (none, some e) ∧
          e = .Errorf "while describing ELBs: " err ∧ e ≠ .ErrELBNotFound) := by
  refine ⟨?_, ?_, ?_, ?_⟩
  · unfold findLoadBalancer
    cases d.elbClient.DescribeLoadBalancers tr <;> rfl
  · intro before lb after hout hbefore hlb
    unfold findLoadBalancer
    rw [hout]
    simp only []
    rw [findLoadBalancerLoop_skip first others vpc hvpc before (lb :: after) hbefore,
      findLoadBalancerLoop_hit first others vpc hvpc lb after hlb]
  · intro out hout hsafe
    unfold findLoadBalancer
    rw [hout]
    exact findLoadBalancerLoop_not_found_iff first others vpc hvpc _ hsafe
  · intro err herr
    refine ⟨_, ?_, rfl, by simp⟩
    unfold findLoadBalancer
    rw [herr]

/-- C5, on the test's old instances with the matching load balancer listed
after one of another network. -/
theorem findLoadBalancer_selection_witness :
    (findLoadBalancer (threeBalancersScript.deployer none) testOldInstances []).1
      = .returned (some (getLoadBalancerDescription "test-elb" "vpc-1"), none) :=
  (findLoadBalancer_selection (threeBalancersScript.deployer none)
      (getTypeInstanceStub "i-1" "ami-123" "vpc-1" "subnet-1" ["sg-1"])
      [getTypeInstanceStub "i-2" "ami-123" "vpc-1" "subnet-2" ["sg-1"],
       getTypeInstanceStub "i-3" "ami-123" "vpc-1" "subnet-3" ["sg-1"]]
      [] "vpc-1" rfl).2.1
    [getLoadBalancerDescription "wrong-elb" "other-vpc"]
    (getLoadBalancerDescription "test-elb" "vpc-1")
    [getLoadBalancerDescription "late-elb" "vpc-1"]
    rfl (by decide) rfl

/-! ## Provisioning -/

/-- C3: for an old instance whose dereferenced pointers are not nil,
`createNewInstance` sends one `RunInstances` request whose tag list is the old
instance's tag list with exactly the tags dropped whose key begins with the
reserved prefix aws: a tag is sent if and only if it is a tag of the old
instance and its key does not begin with the prefix, the tags that are sent are
unchanged (key and value) and keep their relative order. -/
theorem createNewInstance_tags (d : Deployer) (o : Instance) (newAmiID : String) (tr : Trace)
    (h : o.Cloneable) :
    ∃ params, (createNewInstance d o newAmiID tr).2 = tr ++ [Call.RunInstances params] ∧
      params.TagSpecifications =
        [ { ResourceType := "instance"
            Tags := o.Tags.filter (fun tag => !tag.hasReservedKey) } ] ∧
      (∀ tag, tag ∈ o.Tags.filter (fun tag => !tag.hasReservedKey) ↔
        tag ∈ o.Tags ∧ ¬ ∃ key rest, tag.Key = some key ∧ key = "aws" ++ rest) ∧
      (o.Tags.filter (fun tag => !tag.hasReservedKey)).Sublist o.Tags := by
  refine ⟨expectedRunInstancesInput d newAmiID o, ?_, rfl, ?_, List.filter_sublist _⟩
  · rw [createNewInstance_eq d o newAmiID tr h]
  · intro tag
    have hkey : tag.hasReservedKey = true ↔
        ∃ key rest, tag.Key = some key ∧ key = "aws" ++ rest := by
      unfold Tag.hasReservedKey
      cases hk : tag.Key with
      | none => simp
      | some key => simp [hasPrefix_iff]
    simp only [List.mem_filter, Bool.not_eq_true', ← hkey]
    simp

/-- C3, on an instance of the test with a name tag and a reserved tag: only the
name tag is sent. -/
theorem createNewInstance_tags_witness :
    ∃ params,
      (createNewInstance testDeployer
          (getTypeInstanceStub "i-1" "ami-123" "vpc-1" "subnet-1" ["sg-1"]) "ami-987" []).2
        = [] ++ [Call.RunInstances params] ∧
      params.TagSpecifications =
        [ { ResourceType := "instance"
            Tags := [ { Key := some "Name", Value := some "i-1" } ] } ] := by
  obtain ⟨params, htrace, htags, _, _⟩ :=
    createNewInstance_tags testDeployer
      (getTypeInstanceStub "i-1" "ami-123" "vpc-1" "subnet-1" ["sg-1"]) "ami-987" []
      (by simp [Instance.Cloneable, getTypeInstanceStub])
  exact ⟨params, htrace, by rw [htags]; decide⟩

/-- C4: for N old instances whose dereferenced pointers are not nil, when every
`RunInstances` call succeeds, `createNewInstances` issues exactly N
`RunInstances` requests, one per old instance and in their order, and returns
without error exactly the N instances that the calls returned, in that order;
the request for an old instance carries the new image id, MinCount = MaxCount =
1, the configured user data, and the old instance's type, subnet id and
security-group ids unchanged and in order. -/
theorem createNewInstances_cardinality (d : Deployer) (olds news : List Instance)
    (newAmiID : String) (tr : Trace)
    (hsafe : ∀ o ∈ olds, o.Cloneable) (hruns : RunsSucceed d newAmiID olds news tr) :
    createNewInstances d olds newAmiID tr =
        (.returned (news, none),
          tr ++ olds.map (fun o => Call.RunInstances (expectedRunInstancesInput d newAmiID o))) ∧
    news.length = olds.length ∧
    (olds.map (fun o => Call.RunInstances (expectedRunInstancesInput d newAmiID o))).length
        = olds.length ∧
    ∀ o ∈ olds,
      (expectedRunInstancesInput d newAmiID o).ImageId = some newAmiID ∧
      (expectedRunInstancesInput d newAmiID o).MinCount = some 1 ∧
      (expectedRunInstancesInput d newAmiID o).MaxCount = some 1 ∧
      (expectedRunInstancesInput d newAmiID o).UserData = d.userData ∧
      (expectedRunInstancesInput d newAmiID o).InstanceType = o.InstanceType ∧
      (expectedRunInstancesInput d newAmiID o).SubnetId = o.SubnetId ∧
      (expectedRunInstancesInput d newAmiID o).SecurityGroupIds.map some
        = o.SecurityGroups.map (fun sg => sg.GroupId) := by
  refine ⟨?_, RunsSucceed_length d newAmiID olds news tr hruns, by simp, ?_⟩
  · have hloop := createNewInstancesLoop_append d newAmiID olds [] news [] tr hsafe hruns
    simpa [createNewInstances, createNewInstancesLoop] using hloop
  · intro o ho
    refine ⟨rfl, rfl, rfl, rfl, rfl, rfl, ?_⟩
    exact filterMap_map_some _ _ (hsafe o ho).1

/-- C4, on the three old instances of the test. -/
theorem createNewInstances_cardinality_witness :
    (createNewInstances testDeployer testOldInstances "ami-987" []).1
        = .returned (testNewInstances, none) ∧
    (createNewInstances testDeployer testOldInstances "ami-987" []).2.length = 3 :=
  have h := createNewInstances_cardinality testDeployer testOldInstances testNewInstances
    "ami-987" []
    (by simp [Instance.Cloneable, testOldInstances, getTypeInstanceStub])
    ⟨⟨[], rfl⟩, ⟨[], rfl⟩, ⟨[], rfl⟩, trivial⟩
  ⟨by rw [h.1], by rw [h.1]; rfl⟩

/-- C9: if the `RunInstances` calls for the first k-1 old instances succeed and
the call for the k-th fails, `createNewInstances` returns a non-nil error
together with exactly the k-1 instances created so far, in order, and the
failing call is its last one: k calls in total, none for the old instances
after the k-th.  (The old instances up to the k-th have no nil pointer among
those that are dereferenced.) -/
theorem createNewInstances_partial_failure (d : Deployer) (pre post news : List Instance)
    (failing : Instance) (newAmiID : String) (tr : Trace) (err : Error)
    (hsafe : ∀ o ∈ pre ++ [failing], o.Cloneable)
    (hruns : RunsSucceed d newAmiID pre news tr)
    (hfail : d.ec2Client.RunInstances
        (tr ++ pre.map (fun o => Call.RunInstances (expectedRunInstancesInput d newAmiID o)))
        (expectedRunInstancesInput d newAmiID failing) = .error err) :
    createNewInstances d (pre ++ failing :: post) newAmiID tr =
        (.returned (news, some (.Errorf "while creating new instance: "
            (.Errorf "while running new instance: " err))),
          tr ++ (pre ++ [failing]).map
            (fun o => Call.RunInstances (expectedRunInstancesInput d newAmiID o))) ∧
    news.length = pre.length ∧
    ((pre ++ [failing]).map
        (fun o => Call.RunInstances (expectedRunInstancesInput d newAmiID o))).length
      = pre.length + 1 := by
  refine ⟨?_, RunsSucceed_length d newAmiID pre news tr hruns, by simp⟩
  have hpre : ∀ o ∈ pre, o.Cloneable := fun o ho => hsafe o (List.mem_append_left _ ho)
  have hf : failing.Cloneable := hsafe failing (by simp)
  have hloop := createNewInstancesLoop_append d newAmiID pre (failing :: post) news [] tr
    hpre hruns
  unfold createNewInstances
  rw [hloop]
  simp only [createNewInstancesLoop, List.nil_append]
  rw [createNewInstance_eq d failing newAmiID _ hf, hfail]
  simp [List.append_assoc]

/-- C9, on the script whose second `RunInstances` call fails: the first new
instance is returned with the error, and two calls are issued. -/
theorem createNewInstances_partial_failure_witness :
    (createNewInstances (failingRunScript.deployer none) testOldInstances "ami-987" []).1
      = .returned ([newInstanceStub "i-1-new"],
          some (.Errorf "while creating new instance: "
            (.Errorf "while running new instance: " (.api "InsufficientInstanceCapacity")))) ∧
    (createNewInstances (failingRunScript.deployer none) testOldInstances "ami-987" []).2.length
      = 2 :=
  have h := (createNewInstances_partial_failure (failingRunScript.deployer none)
    [getTypeInstanceStub "i-1" "ami-123" "vpc-1" "subnet-1" ["sg-1"]]
    [getTypeInstanceStub "i-3" "ami-123" "vpc-1" "subnet-3" ["sg-1"]]
    [newInstanceStub "i-1-new"]
    (getTypeInstanceStub "i-2" "ami-123" "vpc-1" "subnet-2" ["sg-1"])
    "ami-987" [] (.api "InsufficientInstanceCapacity")
    (by simp [Instance.Cloneable, getTypeInstanceStub])
    ⟨⟨[], rfl⟩, trivial⟩
    rfl).1
  ⟨congrArg Prod.fst h, congrArg (fun x => x.2.length) h⟩

/-! ## Health polling -/

/-- C6 as stated fails: three new instances are queried, the health answer
lists only the first of them (in service), so the second and the third are not
reported in service, and `checkInstancesHealth` still reports healthy. -/
theorem checkInstancesHealth_counterexample :
    (partialHealthScript.deployer none).elbClient.DescribeInstanceHealth []
        { LoadBalancerName := some "test-elb", Instances := elbInstancesOf testNewInstances }
      = .ok { InstanceStates := [ { InstanceId := some "i-1-new", State := some "InService" } ] } ∧
    ¬ (∀ inst ∈ testNewInstances,
        ReportedInService [ { InstanceId := some "i-1-new", State := some "InService" } ] inst) ∧
    checkInstancesHealth (partialHealthScript.deployer none)
        (getLoadBalancerDescription "test-elb" "vpc-1") testNewInstances []
      = (.returned (true, none),
          [healthCall (getLoadBalancerDescription "test-elb" "vpc-1") testNewInstances]) := by
  refine ⟨rfl, ?_, by decide⟩
  simp only [ReportedInService]
  decide

/-- C6 as amended: on a successful `DescribeInstanceHealth` response,
`checkInstancesHealth` reports healthy exactly when every state listed in the
response is InService (the response is not matched against the queried
instances); when a listed state is not InService (and no state pointer is nil)
it reports not-healthy without error, the attempt of
`ensureInstancesAreInService` ends with `ErrInstancesNotInService`, and the
retry loop, when it has an attempt left, issues the health query again. -/
theorem checkInstancesHealth_decision (d : Deployer) (lb : LoadBalancerDescription)
    (instances : List Instance) (tr : Trace) (out : DescribeInstanceHealthOutput)
    (hout : d.elbClient.DescribeInstanceHealth tr
        { LoadBalancerName := lb.LoadBalancerName, Instances := elbInstancesOf instances }
        = .ok out) :
    ((checkInstancesHealth d lb instances tr).1 = .returned (true, none)
        ↔ ∀ s ∈ out.InstanceStates, s.State = some "InService") ∧
    ((∀ s ∈ out.InstanceStates, s.State ≠ none) →
      (∃ s ∈ out.InstanceStates, s.State ≠ some "InService") →
        checkInstancesHealth d lb instances tr
          = (.returned (false, none), tr ++ [healthCall lb instances]) ∧
        healthAttempt d lb instances tr
          = (.returned (some .ErrInstancesNotInService), tr ++ [healthCall lb instances]) ∧
        (∀ giveUp n,
          ensureInstancesAreInService d { attempts := n + 1, giveUp := giveUp } lb instances tr
            = retryDo giveUp (healthAttempt d lb instances) n [.ErrInstancesNotInService]
                (tr ++ [healthCall lb instances])) ∧
        (∀ giveUp n, ∃ ext,
          (ensureInstancesAreInService d { attempts := n + 2, giveUp := giveUp }
              lb instances tr).2
            = tr ++ [healthCall lb instances, healthCall lb instances] ++ ext)) := by
  constructor
  · rw [checkInstancesHealth_eq, hout]
    exact allInService_true_iff _
  · intro hsafe hbad
    have hattempt := healthAttempt_unhealthy d lb instances tr out hout hsafe hbad
    have hnext : ∀ giveUp n,
        ensureInstancesAreInService d { attempts := n + 1, giveUp := giveUp } lb instances tr
          = retryDo giveUp (healthAttempt d lb instances) n [.ErrInstancesNotInService]
              (tr ++ [healthCall lb instances]) := by
      intro giveUp n
      simp only [ensureInstancesAreInService, retryDo, hattempt, List.nil_append]
    refine ⟨?_, hattempt, hnext, ?_⟩
    · rw [checkInstancesHealth_eq, hout]
      simp only []
      rw [allInService_false _ hsafe hbad]
    · intro giveUp n
      obtain ⟨k, _, hpos, hk⟩ := retryDo_healthAttempt_trace giveUp d lb instances (n + 1)
        [.ErrInstancesNotInService] (tr ++ [healthCall lb instances])
      have hk1 : 0 < k := hpos (Nat.succ_pos _)
      obtain ⟨j, rfl⟩ : ∃ j, k = j + 1 := ⟨k - 1, by omega⟩
      refine ⟨List.replicate j (healthCall lb instances), ?_⟩
      rw [hnext giveUp (n + 1), hk]
      simp [List.replicate_succ]

/-- C6 as amended, on the script whose first health answer reports the second
new instance out of service: the first attempt ends with
`ErrInstancesNotInService` and the query is issued a second time. -/
theorem checkInstancesHealth_decision_witness :
    healthAttempt (slowStartScript.deployer none)
        (getLoadBalancerDescription "test-elb" "vpc-1") testNewInstances []
      = (.returned (some .ErrInstancesNotInService),
          [] ++ [healthCall (getLoadBalancerDescription "test-elb" "vpc-1") testNewInstances]) :=
  ((checkInstancesHealth_decision (slowStartScript.deployer none)
      (getLoadBalancerDescription "test-elb" "vpc-1") testNewInstances []
      { InstanceStates :=
          [ { InstanceId := some "i-1-new", State := some "InService" },
            { InstanceId := some "i-2-new", State := some "OutOfService" },
            { InstanceId := some "i-3-new", State := some "InService" } ] }
      rfl).2 (by decide) (by decide)).2.1

/-! ## The orchestrator -/

/-- C1: `DescribeInstances` returns a non-empty list of N old instances,
`DescribeLoadBalancers` returns a list in which `lb` is the first load balancer
whose VPC id is the VPC id of the first old instance, every `RunInstances` call
succeeds (the i-th returning the i-th instance of `news`), registration
succeeds, the first `DescribeInstanceHealth` reports every state InService,
`TerminateInstances` succeeds, and the pointers that the run dereferences are
not nil.  Then `Deploy` returns nil and issues exactly: one `DescribeInstances`,
one `DescribeLoadBalancers`, N `RunInstances` (the i-th built from the i-th old
instance with the new AMI id), one `RegisterInstancesWithLoadBalancer` naming
`lb` and the N new instance ids in order, one `DescribeInstanceHealth` for the
same load balancer and ids, and one `TerminateInstances` listing the N old
instance ids in discovery order. -/
theorem Deploy_happy_path (d : Deployer) (ctx : Context) (input : DeployInput) (tr : Trace)
    (out : DescribeInstancesOutput) (first : Instance) (others : List Instance) (vpc : String)
    (before after : List LoadBalancerDescription) (lb : LoadBalancerDescription)
    (news : List Instance) (health : DescribeInstanceHealthOutput)
    (hdescribe : d.ec2Client.DescribeInstances tr (describeInstancesInput input.OldAmiID)
        = .ok out)
    (holds : (out.Reservations.map (fun r => r.Instances)).flatten = first :: others)
    (hsafe : ∀ o ∈ first :: others, o.Cloneable ∧ o.InstanceId ≠ none)
    (hvpc : first.VpcId = some vpc)
    (hlbs : d.elbClient.DescribeLoadBalancers
        (tr ++ [Call.DescribeInstances (describeInstancesInput input.OldAmiID)])
        = .ok { LoadBalancerDescriptions := before ++ lb :: after })
    (hbefore : ∀ x ∈ before, ∃ v, x.VPCId = some v ∧ v ≠ vpc)
    (hlb : lb.VPCId = some vpc)
    (hname : lb.LoadBalancerName ≠ none)
    (hruns : RunsSucceed d input.NewAmiID (first :: others) news
        (tr ++ [Call.DescribeInstances (describeInstancesInput input.OldAmiID)]
          ++ [Call.DescribeLoadBalancers]))
    (hregister : d.elbClient.RegisterInstancesWithLoadBalancer
        (tr ++ [Call.DescribeInstances (describeInstancesInput input.OldAmiID)]
          ++ [Call.DescribeLoadBalancers] ++ runCalls d input.NewAmiID (first :: others))
        { LoadBalancerName := lb.LoadBalancerName, Instances := elbInstancesOf news } = none)
    (hattempts : 0 < ctx.attempts)
    (hhealth : d.elbClient.DescribeInstanceHealth
        (tr ++ [Call.DescribeInstances (describeInstancesInput input.OldAmiID)]
          ++ [Call.DescribeLoadBalancers] ++ runCalls d input.NewAmiID (first :: others)
          ++ [registerCall lb news])
        { LoadBalancerName := lb.LoadBalancerName, Instances := elbInstancesOf news }
        = .ok health)
    (hinservice : ∀ s ∈ health.InstanceStates, s.State = some "InService")
    (hterminate : d.ec2Client.TerminateInstances
        (tr ++ [Call.DescribeInstances (describeInstancesInput input.OldAmiID)]
          ++ [Call.DescribeLoadBalancers] ++ runCalls d input.NewAmiID (first :: others)
          ++ [registerCall lb news] ++ [healthCall lb news])
        { InstanceIds := instanceIdsOf (first :: others) } = none) :
    Deploy d ctx input tr =
      (.returned none,
        tr ++ [Call.DescribeInstances (describeInstancesInput input.OldAmiID)]
          ++ [Call.DescribeLoadBalancers] ++ runCalls d input.NewAmiID (first :: others)
          ++ [registerCall lb news] ++ [healthCall lb news]
          ++ [Call.TerminateInstances { InstanceIds := instanceIdsOf (first :: others) }]) ∧
    news.length = (first :: others).length ∧
    (runCalls d input.NewAmiID (first :: others)).length = (first :: others).length ∧
    (elbInstancesOf news).map (fun e => e.InstanceId) = news.map (fun n => n.InstanceId) ∧
    (instanceIdsOf (first :: others)).map some
      = (first :: others).map (fun o => o.InstanceId) := by
  have hclone : ∀ o ∈ first :: others, o.Cloneable := fun o ho => (hsafe o ho).1
  have hids : ∀ o ∈ first :: others, o.InstanceId ≠ none := fun o ho => (hsafe o ho).2
  refine ⟨?_, RunsSucceed_length _ _ _ _ _ hruns, by simp [runCalls],
    by simp [elbInstancesOf], filterMap_map_some _ _ hids⟩
  obtain ⟨name, hname2⟩ : ∃ name, lb.LoadBalancerName = some name :=
    Option.ne_none_iff_exists'.mp hname
  have hfind : findLoadBalancer d (first :: others)
      (tr ++ [Call.DescribeInstances (describeInstancesInput input.OldAmiID)])
      = (.returned (some lb, none),
          tr ++ [Call.DescribeInstances (describeInstancesInput input.OldAmiID)]
            ++ [Call.DescribeLoadBalancers]) := by
    unfold findLoadBalancer
    rw [hlbs]
    simp only []
    rw [findLoadBalancerLoop_skip first others vpc hvpc before (lb :: after) hbefore,
      findLoadBalancerLoop_hit first others vpc hvpc lb after hlb]
  have hcreate : createNewInstances d (first :: others) input.NewAmiID
      (tr ++ [Call.DescribeInstances (describeInstancesInput input.OldAmiID)]
        ++ [Call.DescribeLoadBalancers])
      = (.returned (news, none),
          tr ++ [Call.DescribeInstances (describeInstancesInput input.OldAmiID)]
            ++ [Call.DescribeLoadBalancers] ++ runCalls d input.NewAmiID (first :: others)) := by
    have hloop := createNewInstancesLoop_append d input.NewAmiID (first :: others) [] news []
      _ hclone hruns
    unfold createNewInstances
    rw [← List.append_nil (first :: others), hloop]
    simp [createNewInstancesLoop, runCalls]
  have hensure := ensureInstancesAreInService_first_attempt d ctx lb news _ health hattempts
    hhealth hinservice
  unfold Deploy
  rw [getOldInstances_ok d _ tr out hdescribe, holds]
  simp only []
  rw [hfind]
  simp only [hname2]
  rw [hcreate]
  simp only []
  rw [attachInstancesToLoadBalancer_eq, hregister]
  simp only []
  rw [hensure]
  simp only []
  rw [terminateTypeInstances_eq d _ _ hids, hterminate]

/-- C1, on the scenario of `TestDeploymentHappyPath`: three old instances, the
load balancer of their network listed before one of another network. -/
theorem Deploy_happy_path_witness :
    (Deploy testDeployer testContext testInput []).1 = .returned none ∧
    (Deploy testDeployer testContext testInput []).2 =
      [ Call.DescribeInstances (describeInstancesInput "ami-123"),
        Call.DescribeLoadBalancers ]
      ++ runCalls testDeployer "ami-987" testOldInstances
      ++ [ registerCall (getLoadBalancerDescription "test-elb" "vpc-1") testNewInstances,
           healthCall (getLoadBalancerDescription "test-elb" "vpc-1") testNewInstances,
           Call.TerminateInstances { InstanceIds := ["i-1", "i-2", "i-3"] } ] :=
  have h := (Deploy_happy_path testDeployer testContext testInput []
    { Reservations := [ { Instances := testOldInstances } ] }
    (getTypeInstanceStub "i-1" "ami-123" "vpc-1" "subnet-1" ["sg-1"])
    [ getTypeInstanceStub "i-2" "ami-123" "vpc-1" "subnet-2" ["sg-1"],
      getTypeInstanceStub "i-3" "ami-123" "vpc-1" "subnet-3" ["sg-1"] ]
    "vpc-1" [] [getLoadBalancerDescription "wrong-elb" "other-vpc"]
    (getLoadBalancerDescription "test-elb" "vpc-1") testNewInstances
    { InstanceStates := testHealthy }
    rfl rfl
    (by simp [Instance.Cloneable, getTypeInstanceStub])
    rfl rfl (by simp) rfl (by simp [getLoadBalancerDescription])
    ⟨⟨[], rfl⟩, ⟨[], rfl⟩, ⟨[], rfl⟩, trivial⟩
    rfl (by decide) rfl (by decide) rfl).1
  ⟨by rw [h], by rw [h]; rfl⟩

/-- C2: when discovery, the load-balancer lookup, provisioning, registration or
the health wait returns an error, `Deploy` returns a non-nil error that wraps
it, and the history at the end of `Deploy` is the history at the end of the
failing step: no call of a later step is issued.  If the history of a run
contains a `TerminateInstances` call (and did not before the run), then all
five earlier steps of that run returned without error. -/
theorem Deploy_aborts_on_failure (d : Deployer) (ctx : Context) (input : DeployInput)
    (tr : Trace) :
    (∀ r e t1,
      getOldInstances d input.OldAmiID tr = (.returned (r, some e), t1) →
      Deploy d ctx input tr
        = (.returned (some (.Errorf "while getting old instances: " e)), t1)) ∧
    (∀ olds t1 r e t2,
      getOldInstances d input.OldAmiID tr = (.returned (olds, none), t1) →
      findLoadBalancer d olds t1 = (.returned (r, some e), t2) →
      Deploy d ctx input tr = (.returned (some (.Errorf "while finding ELB: " e)), t2)) ∧
    (∀ olds t1 elb t2 r e t3,
      getOldInstances d input.OldAmiID tr = (.returned (olds, none), t1) →
      findLoadBalancer d olds t1 = (.returned (some elb, none), t2) →
      elb.LoadBalancerName ≠ none →
      createNewInstances d olds input.NewAmiID t2 = (.returned (r, some e), t3) →
      Deploy d ctx input tr
        = (.returned (some (.Errorf "while creating new instances: " e)), t3)) ∧
    (∀ olds t1 elb t2 news t3 e t4,
      getOldInstances d input.OldAmiID tr = (.returned (olds, none), t1) →
      findLoadBalancer d olds t1 = (.returned (some elb, none), t2) →
      elb.LoadBalancerName ≠ none →
      createNewInstances d olds input.NewAmiID t2 = (.returned (news, none), t3) →
      attachInstancesToLoadBalancer d elb news t3 = (.returned (some e), t4) →
      Deploy d ctx input tr
        = (.returned (some (.Errorf "while attaching instances to load balancer: " e)), t4)) ∧
    (∀ olds t1 elb t2 news t3 t4 e t5,
      getOldInstances d input.OldAmiID tr = (.returned (olds, none), t1) →
      findLoadBalancer d olds t1 = (.returned (some elb, none), t2) →
      elb.LoadBalancerName ≠ none →
      createNewInstances d olds input.NewAmiID t2 = (.returned (news, none), t3) →
      attachInstancesToLoadBalancer d elb news t3 = (.returned none, t4) →
      ensureInstancesAreInService d ctx elb news t4 = (.returned (some e), t5) →
      Deploy d ctx input tr
        = (.returned (some (.Errorf "while ensuring new instances are InService: " e)), t5)) ∧
    (NoTerminate tr →
      (∃ c ∈ (Deploy d ctx input tr).2, c.isTerminate = true) →
      ∃ olds t1 elb t2 news t3 t4 t5,
        getOldInstances d input.OldAmiID tr = (.returned (olds, none), t1) ∧
        findLoadBalancer d olds t1 = (.returned (some elb, none), t2) ∧
        createNewInstances d olds input.NewAmiID t2 = (.returned (news, none), t3) ∧
        attachInstancesToLoadBalancer d elb news t3 = (.returned none, t4) ∧
        ensureInstancesAreInService d ctx elb news t4 = (.returned none, t5)) := by
  refine ⟨?_, ?_, ?_, ?_, ?_, ?_⟩
  · intro r e t1 h1
    unfold Deploy
    rw [h1]
  · intro olds t1 r e t2 h1 h2
    unfold Deploy
    rw [h1]
    simp only []
    rw [h2]
    cases r <;> rfl
  · intro olds t1 elb t2 r e t3 h1 h2 hname h3
    obtain ⟨name, hname2⟩ := Option.ne_none_iff_exists'.mp hname
    unfold Deploy
    rw [h1]
    simp only []
    rw [h2]
    simp only [hname2]
    rw [h3]
  · intro olds t1 elb t2 news t3 e t4 h1 h2 hname h3 h4
    obtain ⟨name, hname2⟩ := Option.ne_none_iff_exists'.mp hname
    unfold Deploy
    rw [h1]
    simp only []
    rw [h2]
    simp only [hname2]
    rw [h3]
    simp only []
    rw [h4]
  · intro olds t1 elb t2 news t3 t4 e t5 h1 h2 hname h3 h4 h5
    obtain ⟨name, hname2⟩ := Option.ne_none_iff_exists'.mp hname
    unfold Deploy
    rw [h1]
    simp only []
    rw [h2]
    simp only [hname2]
    rw [h3]
    simp only []
    rw [h4]
    simp only []
    rw [h5]
  · intro hno hcall
    rcases Deploy_cases d ctx input tr with ⟨_, hstop⟩ | ⟨olds, t1, elb, t2, news, t3, t4, t5, h⟩
    · obtain ⟨c, hc, hterm⟩ := hcall
      have hfalse := hstop hno c hc
      rw [hterm] at hfalse
      exact absurd hfalse (by simp)
    · exact ⟨olds, t1, elb, t2, news, t3, t4, t5, h.1, h.2.1, h.2.2.1, h.2.2.2.1, h.2.2.2.2.1⟩

/-- C2, on the script whose second `RunInstances` call fails: `Deploy` returns
the wrapped error, and its history ends with the failing call. -/
theorem Deploy_aborts_on_failure_witness :
    Deploy (failingRunScript.deployer none) testContext testInput [] =
      (.returned (some (.Errorf "while creating new instances: "
          (.Errorf "while creating new instance: "
            (.Errorf "while running new instance: " (.api "InsufficientInstanceCapacity"))))),
        [ Call.DescribeInstances (describeInstancesInput "ami-123"),
          Call.DescribeLoadBalancers,
          Call.RunInstances (expectedRunInstancesInput (failingRunScript.deployer none) "ami-987"
            (getTypeInstanceStub "i-1" "ami-123" "vpc-1" "subnet-1" ["sg-1"])),
          Call.RunInstances (expectedRunInstancesInput (failingRunScript.deployer none) "ami-987"
            (getTypeInstanceStub "i-2" "ami-123" "vpc-1" "subnet-2" ["sg-1"])) ]) :=
  (Deploy_aborts_on_failure (failingRunScript.deployer none) testContext testInput []).2.2.1
    testOldInstances
    [Call.DescribeInstances (describeInstancesInput "ami-123")]
    (getLoadBalancerDescription "test-elb" "vpc-1")
    [Call.DescribeInstances (describeInstancesInput "ami-123"), Call.DescribeLoadBalancers]
    [newInstanceStub "i-1-new"]
    (.Errorf "while creating new instance: "
      (.Errorf "while running new instance: " (.api "InsufficientInstanceCapacity")))
    _
    (by decide) (by decide) (by decide) (by decide)

/-- C8 as stated fails.  Discovery succeeds and finds no instance.  With no
load balancer listed, `Deploy` returns the error of the load-balancer lookup;
with the load balancers of the test listed, `Deploy` panics on `instances[0]`.
In neither run does it return nil. -/
theorem Deploy_zero_instances_counterexample :
    getOldInstances (noInstancesScript.deployer none) "ami-123" []
      = (.returned ([], none), [Call.DescribeInstances (describeInstancesInput "ami-123")]) ∧
    Deploy (noInstancesScript.deployer none) testContext testInput []
      = (.returned (some (.Errorf "while finding ELB: " .ErrELBNotFound)),
          [Call.DescribeInstances (describeInstancesInput "ami-123"),
           Call.DescribeLoadBalancers]) ∧
    getOldInstances (noInstancesWithBalancersScript.deployer none) "ami-123" []
      = (.returned ([], none), [Call.DescribeInstances (describeInstancesInput "ami-123")]) ∧
    Deploy (noInstancesWithBalancersScript.deployer none) testContext testInput []
      = (.panicked,
          [Call.DescribeInstances (describeInstancesInput "ami-123"),
           Call.DescribeLoadBalancers]) := by
  refine ⟨by decide, by decide, by decide, by decide⟩

/-- C8 as amended: when `DescribeInstances` succeeds and returns no instance,
`Deploy` issues `DescribeInstances` and `DescribeLoadBalancers` and nothing
else, so no `RunInstances`, no `RegisterInstancesWithLoadBalancer` and no
`TerminateInstances` call; when `DescribeLoadBalancers` lists no load balancer
`Deploy` returns the error `ErrELBNotFound` wrapped by the lookup step, and
when `DescribeLoadBalancers` fails it returns that error wrapped. -/
theorem Deploy_zero_instances (d : Deployer) (ctx : Context) (input : DeployInput) (tr : Trace)
    (out : DescribeInstancesOutput)
    (hdescribe : d.ec2Client.DescribeInstances tr (describeInstancesInput input.OldAmiID)
        = .ok out)
    (hempty : ∀ r ∈ out.Reservations, r.Instances = []) :
    (Deploy d ctx input tr).2
      = tr ++ [Call.DescribeInstances (describeInstancesInput input.OldAmiID)]
          ++ [Call.DescribeLoadBalancers] ∧
    (∀ c ∈ (Deploy d ctx input tr).2.drop tr.length,
      c.isRun = false ∧ c.isRegister = false ∧ c.isTerminate = false) ∧
    (d.elbClient.DescribeLoadBalancers
        (tr ++ [Call.DescribeInstances (describeInstancesInput input.OldAmiID)])
        = .ok { LoadBalancerDescriptions := [] } →
      (Deploy d ctx input tr).1
        = .returned (some (.Errorf "while finding ELB: " .ErrELBNotFound))) ∧
    (∀ err, d.elbClient.DescribeLoadBalancers
        (tr ++ [Call.DescribeInstances (describeInstancesInput input.OldAmiID)])
        = .error err →
      (Deploy d ctx input tr).1
        = .returned (some (.Errorf "while finding ELB: "
            (.Errorf "while describing ELBs: " err)))) := by
  have hnil : (out.Reservations.map (fun r => r.Instances)).flatten = [] := by
    simp only [List.flatten_eq_nil_iff, List.mem_map]
    rintro l ⟨r, hr, rfl⟩
    exact hempty r hr
  have hold := getOldInstances_ok d input.OldAmiID tr out hdescribe
  rw [hnil] at hold
  have htrace : (Deploy d ctx input tr).2
      = tr ++ [Call.DescribeInstances (describeInstancesInput input.OldAmiID)]
          ++ [Call.DescribeLoadBalancers] := by
    have hno := findLoadBalancer_no_instances d
      (tr ++ [Call.DescribeInstances (describeInstancesInput input.OldAmiID)])
    have ht := findLoadBalancer_trace d []
      (tr ++ [Call.DescribeInstances (describeInstancesInput input.OldAmiID)])
    unfold Deploy
    rw [hold]
    simp only []
    rcases h2 : findLoadBalancer d []
      (tr ++ [Call.DescribeInstances (describeInstancesInput input.OldAmiID)]) with ⟨r2, t2⟩
    rw [h2] at ht hno
    simp only at ht
    subst ht
    rcases r2 with ⟨_ | elb, _ | e2⟩ | _
    · rfl
    · rfl
    · exact absurd rfl (hno elb)
    · rfl
    · rfl
  refine ⟨htrace, ?_, ?_, ?_⟩
  · rw [htrace]
    intro c hc
    simp only [List.append_assoc, List.drop_left, List.singleton_append, List.mem_cons,
      List.mem_singleton, List.not_mem_nil, or_false] at hc
    rcases hc with rfl | rfl <;> exact ⟨rfl, rfl, rfl⟩
  · intro hlbs
    unfold Deploy
    rw [hold]
    simp only [findLoadBalancer, hlbs, findLoadBalancerLoop]
  · intro err hlbs
    unfold Deploy
    rw [hold]
    simp only [findLoadBalancer, hlbs]

/-- C8 as amended, on the script without instances and without load
balancers. -/
theorem Deploy_zero_instances_witness :
    (Deploy (noInstancesScript.deployer none) testContext testInput []).2
      = [] ++ [Call.DescribeInstances (describeInstancesInput "ami-123")]
          ++ [Call.DescribeLoadBalancers] ∧
    (Deploy (noInstancesScript.deployer none) testContext testInput []).1
      = .returned (some (.Errorf "while finding ELB: " .ErrELBNotFound)) :=
  have h := Deploy_zero_instances (noInstancesScript.deployer none) testContext testInput []
    { Reservations := [ { Instances := [] } ] } rfl (by decide)
  ⟨h.1, h.2.2.1 rfl⟩

end IacExercise
